import Mathlib

/-!
Shallow embedding of the `CreatingAMockCrypto` repository
(`src/block.py`, `src/blockchain.py`).

Machine integers are modelled as `Nat`/`Int` with explicit `% 2^32`
where 32-bit overflow matters (inside SHA-256).  Python `None` values
flowing through `proof_no` are modelled as `Option Int`; Python's
heterogeneous `prev_hash` field (the genesis sentinel is the `int` `0`,
later blocks store a hex `str`) is modelled by the sum type `HashV`.
Timestamps (`time.time()` floats) are modelled as rationals; the
textual rendering used inside `calculate_hash` matches Python's `repr`
on integral values (the only timestamps any concrete evaluation below
uses).  Fallible code (`chain[-1]`, `dict[key]`) returns `Except`.
-/

/-! ### SHA-256 (as used by `hashlib.sha256(...).hexdigest()`) -/

/-- 32-bit truncating addition. -/
def add32 (a b : Nat) : Nat := (a + b) % 4294967296

/-- 32-bit right rotation. -/
def rotr (n x : Nat) : Nat := ((x >>> n) ||| (x <<< (32 - n))) % 4294967296

/-- 32-bit bitwise complement. -/
def not32 (x : Nat) : Nat := x ^^^ 4294967295

/-- SHA-256 round constants (FIPS 180-4 table, written in decimal). -/
def sha256K : List Nat :=
  [1116352408, 1899447441, 3049323471, 3921009573, 961987163,
   1508970993, 2453635748, 2870763221, 3624381080, 310598401,
   607225278, 1426881987, 1925078388, 2162078206, 2614888103,
   3248222580, 3835390401, 4022224774, 264347078, 604807628,
   770255983, 1249150122, 1555081692, 1996064986, 2554220882,
   2821834349, 2952996808, 3210313671, 3336571891, 3584528711,
   113926993, 338241895, 666307205, 773529912, 1294757372,
   1396182291, 1695183700, 1986661051, 2177026350, 2456956037,
   2730485921, 2820302411, 3259730800, 3345764771, 3516065817,
   3600352804, 4094571909, 275423344, 430227734, 506948616,
   659060556, 883997877, 958139571, 1322822218, 1537002063,
   1747873779, 1955562222, 2024104815, 2227730452, 2361852424,
   2428436474, 2756734187, 3204031479, 3329325298]

/-- Lowercase sigma-0 of the message schedule. -/
def schedSig0 (x : Nat) : Nat := rotr 7 x ^^^ rotr 18 x ^^^ (x >>> 3)

/-- Lowercase sigma-1 of the message schedule. -/
def schedSig1 (x : Nat) : Nat := rotr 17 x ^^^ rotr 19 x ^^^ (x >>> 10)

/-- Extend the message schedule; `acc` holds the words produced so far,
most recent first, so `w[i-2]` is `acc.getD 1 0` and so on. -/
def extendW : Nat → List Nat → List Nat
  | 0, acc => acc
  | n + 1, acc =>
      extendW n
        (add32 (add32 (acc.getD 15 0) (schedSig0 (acc.getD 14 0)))
               (add32 (acc.getD 6 0) (schedSig1 (acc.getD 1 0))) :: acc)

/-- First 16 schedule words from a 64-byte chunk (big-endian). -/
def chunkWords : List Nat → List Nat
  | b0 :: b1 :: b2 :: b3 :: rest =>
      (((b0 * 256 + b1) * 256 + b2) * 256 + b3) :: chunkWords rest
  | _ => []

/-- SHA-256 compression state. -/
structure Sha8 where
  a : Nat
  b : Nat
  c : Nat
  d : Nat
  e : Nat
  f : Nat
  g : Nat
  h : Nat
deriving DecidableEq

/-- One compression round on state `s` with round constant `k` and
schedule word `w`. -/
def shaRound (s : Sha8) (kw : Nat × Nat) : Sha8 :=
  let e1 := rotr 6 s.e ^^^ rotr 11 s.e ^^^ rotr 25 s.e
  let ch := (s.e &&& s.f) ^^^ (not32 s.e &&& s.g)
  let t1 := add32 (add32 (add32 s.h e1) (add32 ch kw.1)) kw.2
  let e0 := rotr 2 s.a ^^^ rotr 13 s.a ^^^ rotr 22 s.a
  let mj := (s.a &&& s.b) ^^^ (s.a &&& s.c) ^^^ (s.b &&& s.c)
  let t2 := add32 e0 mj
  ⟨add32 t1 t2, s.a, s.b, s.c, add32 s.d t1, s.e, s.f, s.g⟩

/-- Process one 64-byte chunk, updating the hash state. -/
def processChunk (s : Sha8) (chunk : List Nat) : Sha8 :=
  let w := (extendW 48 (chunkWords chunk).reverse).reverse
  let t := (sha256K.zip w).foldl shaRound s
  ⟨add32 s.a t.a, add32 s.b t.b, add32 s.c t.c, add32 s.d t.d,
   add32 s.e t.e, add32 s.f t.f, add32 s.g t.g, add32 s.h t.h⟩

/-- Big-endian bytes of `x`, `n` bytes wide. -/
def beBytes : Nat → Nat → List Nat
  | 0, _ => []
  | n + 1, x => beBytes n (x / 256) ++ [x % 256]

/-- SHA-256 padding: append `0x80`, zeros, and the 64-bit bit length. -/
def sha256Pad (msg : List Nat) : List Nat :=
  msg ++ 0x80 :: List.replicate ((119 - msg.length % 64) % 64) 0
      ++ beBytes 8 (msg.length * 8)

/-- Split a byte list into 64-byte chunks (`fuel` bounds the recursion;
it is instantiated with the list length). -/
def chunksOf : Nat → List Nat → List (List Nat)
  | 0, _ => []
  | fuel + 1, l => if l = [] then [] else l.take 64 :: chunksOf fuel (l.drop 64)

/-- The SHA-256 digest of a byte string, as eight 32-bit words. -/
def sha256Words (msg : List Nat) : List Nat :=
  let padded := sha256Pad msg
  let s := (chunksOf padded.length padded).foldl processChunk
    ⟨1779033703, 3144134277, 1013904242, 2773480762,
     1359893119, 2600822924, 528734635, 1541459225⟩
  [s.a, s.b, s.c, s.d, s.e, s.f, s.g, s.h]

/-- Lowercase hex digit. -/
def hexChar (n : Nat) : Char :=
  if n < 10 then Char.ofNat (48 + n) else Char.ofNat (87 + n)

/-- Eight lowercase hex characters of a 32-bit word, most significant
nibble first. -/
def wordHex (x : Nat) : List Char :=
  (List.range 8).map (fun i => hexChar ((x >>> (28 - 4 * i)) &&& 15))

/-- `hashlib.sha256(bytes).hexdigest()`: the 64-character lowercase hex
digest. -/
def sha256Hex (msg : List Nat) : String :=
  String.mk ((sha256Words msg).map wordHex).flatten

/-- UTF-8 encoding of one code point (Python `str.encode()`). -/
def charUtf8 (c : Char) : List Nat :=
  let n := c.toNat
  if n < 0x80 then [n]
  else if n < 0x800 then [0xc0 + n / 0x40, 0x80 + n % 0x40]
  else if n < 0x10000 then
    [0xe0 + n / 0x1000, 0x80 + n / 0x40 % 0x40, 0x80 + n % 0x40]
  else
    [0xf0 + n / 0x40000, 0x80 + n / 0x1000 % 0x40, 0x80 + n / 0x40 % 0x40,
     0x80 + n % 0x40]

/-- Python `str.encode()`: the UTF-8 bytes of a string. -/
def strUtf8 (s : String) : List Nat := (s.data.map charUtf8).flatten

/-! ### Python value renderings used by `"{}".format` / f-strings -/

/-- `prev_hash` is heterogeneous in the source: the genesis sentinel is
the Python `int` `0` (blockchain.py:84), every mined block stores a hex
`str` (blockchain.py:189-190). -/
inductive HashV where
  | intV (n : Int)
  | strV (s : String)
deriving DecidableEq

/-- Python `str()` of a `prev_hash` value. -/
def HashV.toStr : HashV → String
  | .intV n => toString n
  | .strV s => s

/-- Python `str()` of a `proof_no` value; `None` (the fall-through
result of `proof_of_work`) formats as `"None"`. -/
def pyNumStr : Option Int → String
  | none => "None"
  | some n => toString n

/-- A transaction record as appended by `new_data` (blockchain.py:122-126):
keys `sender`, `recipient`, `quantity` in insertion order. -/
structure Transaction where
  sender : String
  recipient : String
  quantity : Int
deriving DecidableEq

/-- Python `repr` of a string literal (no escaping needed for the
quote-free ASCII strings this development evaluates). -/
def pyStrRepr (s : String) : String := "\x27" ++ s ++ "\x27"

/-- Python `str()` of one transaction dict, e.g.
`\x7b'sender': '0', 'recipient': 'alice', 'quantity': 1\x7d`. -/
def Transaction.toStr (t : Transaction) : String :=
  "\x7b\x27sender\x27: " ++ pyStrRepr t.sender ++
  ", \x27recipient\x27: " ++ pyStrRepr t.recipient ++
  ", \x27quantity\x27: " ++ toString t.quantity ++ "\x7d"

/-- Python `str()` of the `data` list of transaction dicts. -/
def txListStr (l : List Transaction) : String :=
  "[" ++ String.intercalate ", " (l.map Transaction.toStr) ++ "]"

/-- Python `repr` of a timestamp.  `time.time()` returns a float; it is
modelled as a rational.  On integral values this matches Python
(`repr(0.0) = "0.0"`, `repr(1.0) = "1.0"`), which covers every
timestamp rendered concretely below; no theorem in this development
depends on the rendering of a non-integral timestamp (hash-equality
facts depend only on field equality). -/
def floatRepr (q : ℚ) : String :=
  if q.den = 1 then toString q.num ++ ".0"
  else toString q.num ++ "/" ++ toString q.den

/-! ### `Block` (block.py:8-41, duplicated in blockchain.py:10-43) -/

/-- The five stored fields of a `Block`. -/
structure Block where
  index : Int
  proof_no : Option Int
  prev_hash : HashV
  data : List Transaction
  timestamp : ℚ
deriving DecidableEq

/-- `Block.__init__` (block.py:8-21).  `self.timestamp = timestamp or
time.time()`: a falsy argument (`None`, `0`, `0.0`) is replaced by the
current clock reading, a truthy one is stored unchanged.  `clock`
models the value `time.time()` would return at construction. -/
def mkBlock (index : Int) (proof_no : Option Int) (prev_hash : HashV)
    (data : List Transaction) (timestamp : Option ℚ) (clock : ℚ) : Block :=
  { index := index, proof_no := proof_no, prev_hash := prev_hash, data := data,
    timestamp :=
      match timestamp with
      | some t => if t = 0 then clock else t
      | none => clock }

/-- The format-string `"{}{}{}{}{}".format(index, proof_no, prev_hash,
data, timestamp)` (block.py:38-40). -/
def Block.contentString (b : Block) : String :=
  toString b.index ++ pyNumStr b.proof_no ++ b.prev_hash.toStr ++
  txListStr b.data ++ floatRepr b.timestamp

/-- `Block.calculate_hash` (block.py:26-41):
`hashlib.sha256(block_of_string.encode()).hexdigest()`. -/
def Block.calculate_hash (b : Block) : String :=
  sha256Hex (strUtf8 b.contentString)

/-! ### `BlockChain` (blockchain.py:67-213) -/

/-- The mutable state of a `BlockChain` instance: `self.chain`,
`self.current_data`, `self.nodes` (blockchain.py:71-76). -/
structure BlockChain where
  chain : List Block
  current_data : List Transaction
  nodes : Finset String
deriving DecidableEq

/-- `BlockChain.construct_block` (blockchain.py:89-108): builds a block
at index `len(self.chain)` carrying the pending `current_data`, resets
`current_data`, appends the block, and returns it. -/
def BlockChain.construct_block (bc : BlockChain) (proof_no : Option Int)
    (prev_hash : HashV) (clock : ℚ) : BlockChain × Block :=
  let block := mkBlock (bc.chain.length : Int) proof_no prev_hash
    bc.current_data none clock
  (⟨bc.chain ++ [block], [], bc.nodes⟩, block)

/-- `BlockChain.construct_genesis` (blockchain.py:81-84):
`construct_block(proof_no=0, prev_hash=0)` — both Python `int`s. -/
def BlockChain.construct_genesis (bc : BlockChain) (clock : ℚ) : BlockChain :=
  (bc.construct_block (some 0) (.intV 0) clock).1

/-- `BlockChain.__init__` (blockchain.py:71-76): empty chain, empty
pending buffer, empty node set, then `construct_genesis()`. -/
def mkBlockChain (clock : ℚ) : BlockChain :=
  BlockChain.construct_genesis ⟨[], [], ∅⟩ clock

/-- `BlockChain.new_data` (blockchain.py:113-127): appends the
transaction dict to `current_data` and returns `True`. -/
def BlockChain.new_data (bc : BlockChain) (sender recipient : String)
    (quantity : Int) : BlockChain × Bool :=
  (⟨bc.chain, bc.current_data ++ [⟨sender, recipient, quantity⟩], bc.nodes⟩, true)

/-- `BlockChain.verifying_proof` (blockchain.py:162-167):
`sha256(f"\x7blast_proof\x7d\x7bproof\x7d".encode()).hexdigest()[:4] == "0000"`. -/
def BlockChain.verifying_proof (last_proof proof : Option Int) : Bool :=
  let guess := strUtf8 (pyNumStr last_proof ++ pyNumStr proof)
  (sha256Hex guess).take 4 == "0000"

/-- Python `!=` between the `str` result of `calculate_hash` and a
`prev_hash` value; comparison against an `int` is always unequal. -/
def strNeqHashV (s : String) (h : HashV) : Bool :=
  match h with
  | .strV t => s != t
  | .intV _ => true

/-- `BlockChain.check_validity` (blockchain.py:132-145): the four-way
cascade of early `return False`s. -/
def BlockChain.check_validity (block prev_block : Block) : Bool :=
  if prev_block.index + 1 != block.index then false
  else if strNeqHashV prev_block.calculate_hash block.prev_hash then false
  else if !(BlockChain.verifying_proof block.proof_no prev_block.proof_no) then false
  else if block.timestamp ≤ prev_block.timestamp then false
  else true

/-- `BlockChain.proof_of_work` (blockchain.py:150-157).  `proof_no`
starts at 0; the `while` body unconditionally executes `return
proof_no` right after `proof_no += 1`, so the loop runs at most one
iteration: when the guard holds at `proof_no = 0` (the predicate is
`False` there) the function returns `1`; otherwise the loop body never
runs and the function falls through, returning Python `None`. -/
def BlockChain.proof_of_work (last_proof : Option Int) : Option Int :=
  if BlockChain.verifying_proof (some 0) last_proof = false then some 1
  else none

/-- The exceptions the source can actually raise: `chain[-1]` on an
empty list raises `IndexError` (blockchain.py:175); `block_data[key]`
on a missing key raises `KeyError(key)` (blockchain.py:206-211).  No
other exception type appears in the source. -/
inductive PyErr where
  | indexError
  | keyError (key : String)
deriving DecidableEq

/-- `BlockChain.latest_block` (blockchain.py:172-175): `return
self.chain[-1]`. -/
def BlockChain.latest_block (bc : BlockChain) : Except PyErr Block :=
  match bc.chain.getLast? with
  | some b => .ok b
  | none => .error .indexError

/-- `BlockChain.block_mining` (blockchain.py:180-191): stage the reward
transaction, read the tip, run `proof_of_work` on its `proof_no`, hash
the tip, construct and append the new block; `vars(block)` is modelled
by returning the block itself alongside the new state. -/
def BlockChain.block_mining (bc : BlockChain) (details_miner : String)
    (clock : ℚ) : Except PyErr (BlockChain × Block) :=
  let bc1 := (bc.new_data "0" details_miner 1).1
  match bc1.latest_block with
  | .error e => .error e
  | .ok last_block =>
      let last_proof_no := last_block.proof_no
      let proof_no := BlockChain.proof_of_work last_proof_no
      let last_hash := last_block.calculate_hash
      let res := bc1.construct_block proof_no (.strV last_hash) clock
      .ok res

/-- `BlockChain.create_node` (blockchain.py:196-198): `self.nodes.add`. -/
def BlockChain.create_node (bc : BlockChain) (address : String) :
    BlockChain × Bool :=
  (⟨bc.chain, bc.current_data, insert address bc.nodes⟩, true)

/-- The plain-data record of a Block's five fields — `vars(block)` for
a well-typed block. -/
structure BlockRecord where
  index : Int
  proof_no : Option Int
  prev_hash : HashV
  data : List Transaction
  timestamp : ℚ
deriving DecidableEq

/-- `vars(block)`: the mapping of a Block's field values. -/
def varsOf (b : Block) : BlockRecord :=
  ⟨b.index, b.proof_no, b.prev_hash, b.data, b.timestamp⟩

/-- `BlockChain.obtain_block_object` (blockchain.py:203-212) on a
well-typed record: `Block(r['index'], r['proof_no'], r['prev_hash'],
r['data'], timestamp=r['timestamp'])`. -/
def BlockChain.obtain_block_object (r : BlockRecord) (clock : ℚ) : Block :=
  mkBlock r.index r.proof_no r.prev_hash r.data (some r.timestamp) clock

/-! ### Dynamic-typing model of `obtain_block_object`

`obtain_block_object` performs five dict lookups and passes the values
straight into `Block(...)` with no type checks, so to settle the
error-handling claim about it the record is modelled at the level of
Python runtime values: a finite `str`-keyed mapping of dynamically
typed values. -/

/-- A Python runtime value, restricted to the shapes that can occupy a
block-record field. -/
inductive PyVal where
  | vNone
  | vInt (n : Int)
  | vRat (q : ℚ)
  | vStr (s : String)
  | vTxs (l : List Transaction)
deriving DecidableEq

/-- Python truthiness, as tested by `timestamp or time.time()`. -/
def PyVal.truthy : PyVal → Bool
  | .vNone => false
  | .vInt n => n != 0
  | .vRat q => q != 0
  | .vStr s => s != ""
  | .vTxs l => !l.isEmpty

/-- A `Block` whose fields hold arbitrary runtime values, as
`Block.__init__` accepts them (it performs no validation). -/
structure DynBlock where
  index : PyVal
  proof_no : PyVal
  prev_hash : PyVal
  data : PyVal
  timestamp : PyVal
deriving DecidableEq

/-- `Block.__init__` at the dynamic level: fields stored unchanged
except `timestamp or time.time()`. -/
def mkDynBlock (index proof_no prev_hash data timestamp : PyVal)
    (clock : ℚ) : DynBlock :=
  ⟨index, proof_no, prev_hash, data,
   if timestamp.truthy then timestamp else .vRat clock⟩

/-- `block_data[key]`: Python dict subscription, raising
`KeyError(key)` when the key is absent. -/
def pyLookup (d : List (String × PyVal)) (key : String) :
    Except PyErr PyVal :=
  match d.lookup key with
  | some v => .ok v
  | none => .error (.keyError key)

/-- `BlockChain.obtain_block_object` (blockchain.py:203-212) on an
arbitrary mapping: the five subscriptions evaluate left to right
(`index`, `proof_no`, `prev_hash`, `data`, then the keyword argument
`timestamp`), and the values reach `Block(...)` unvalidated. -/
def obtain_block_object_dyn (block_data : List (String × PyVal))
    (clock : ℚ) : Except PyErr DynBlock :=
  match pyLookup block_data "index" with
  | .error e => .error e
  | .ok i =>
    match pyLookup block_data "proof_no" with
    | .error e => .error e
    | .ok p =>
      match pyLookup block_data "prev_hash" with
      | .error e => .error e
      | .ok h =>
        match pyLookup block_data "data" with
        | .error e => .error e
        | .ok d =>
          match pyLookup block_data "timestamp" with
          | .error e => .error e
          | .ok t => .ok (mkDynBlock i p h d t clock)

/-- The five keys `obtain_block_object` subscripts, in evaluation
order. -/
def requiredKeys : List String :=
  ["index", "proof_no", "prev_hash", "data", "timestamp"]

/-! ### Claim theorems -/

set_option maxRecDepth 100000

/-- A `str != prev_hash` comparison is false exactly when `prev_hash`
is the string variant holding the same text. -/
theorem strNeqHashV_eq_false (s : String) (hv : HashV) :
    strNeqHashV s hv = false ↔ hv = .strV s := by
  cases hv with
  | intV n => simp [strNeqHashV]
  | strV t => simp [strNeqHashV]; exact eq_comm

/-- Claim C1 (code bug): `proof_of_work` is claimed to return the
smallest non-negative candidate satisfying the verification predicate,
by a linear scan — as the function's own docstring says ("identifies a
number f' such that hash(ff') contains 4 leading zeroes").  At
`last_proof = 0` the code returns `1`, yet `1` does not satisfy the
predicate against `0` (nor does `0`): the `return` sits inside the loop
body, so the scan stops after one iteration. -/
theorem C1_proof_of_work_at_zero :
    BlockChain.proof_of_work (some 0) = some 1 ∧
    BlockChain.verifying_proof (some 1) (some 0) = false ∧
    BlockChain.verifying_proof (some 0) (some 0) = false :=
  ⟨by decide, by decide, by decide⟩

/-- Claim C2 (confirmed): `check_validity block prev_block` is true iff
the index is the successor, the stored `prev_hash` is the string hash
of the predecessor, the proof passes `verifying_proof`, and the
timestamp strictly increases. -/
theorem C2_check_validity_iff (block prev_block : Block) :
    BlockChain.check_validity block prev_block = true ↔
      (block.index = prev_block.index + 1 ∧
       block.prev_hash = .strV prev_block.calculate_hash ∧
       BlockChain.verifying_proof block.proof_no prev_block.proof_no = true ∧
       prev_block.timestamp < block.timestamp) := by
  unfold BlockChain.check_validity
  split_ifs with h1 h2 h3 h4
  · simp only [false_iff]
    rintro ⟨hi, -, -, -⟩
    rw [bne_iff_ne] at h1
    omega
  · simp only [false_iff]
    rintro ⟨-, hh, -, -⟩
    rw [hh] at h2
    simp [strNeqHashV] at h2
  · simp only [false_iff]
    rintro ⟨-, -, hv, -⟩
    rw [Bool.not_eq_true'] at h3
    exact absurd hv (by simp [h3])
  · simp only [false_iff]
    rintro ⟨-, -, -, ht⟩
    exact absurd h4 (not_le.mpr ht)
  · simp only [true_iff]
    refine ⟨?_, ?_, ?_, ?_⟩
    · rw [bne_iff_ne, not_not] at h1
      omega
    · exact (strNeqHashV_eq_false _ _).mp (Bool.not_eq_true _ ▸ h2)
    · rw [Bool.not_eq_true', Bool.not_eq_false] at h3
      exact h3
    · exact not_le.mp h4

/-- Claim C3 (confirmed): `verifying_proof a b` is true iff the
SHA-256 hex digest of the UTF-8 encoding of the decimal text of `a`
followed by the decimal text of `b`, with no separator, begins with
"0000". -/
theorem C3_verifying_proof_spec (a b : Int) :
    BlockChain.verifying_proof (some a) (some b) = true ↔
      (sha256Hex (strUtf8 (toString a ++ toString b))).take 4 = "0000" := by
  unfold BlockChain.verifying_proof pyNumStr
  simp

/-- Claim C6 (confirmed): a freshly constructed ledger has a
one-element chain whose genesis block has index 0, proof number 0, the
integer sentinel 0 as `prev_hash`, and no transaction data; the
pending buffer is empty. -/
theorem C6_fresh_ledger (clock : ℚ) :
    (mkBlockChain clock).chain.length = 1 ∧
    (∃ g, (mkBlockChain clock).chain = [g] ∧
      g.index = 0 ∧ g.proof_no = some 0 ∧ g.prev_hash = .intV 0 ∧
      g.data = []) ∧
    (mkBlockChain clock).current_data = [] :=
  ⟨rfl, ⟨_, rfl, rfl, rfl, rfl, rfl⟩, rfl⟩

/-- Claim C4 (confirmed): for every ledger state (any chain with a tip
`tip`, any pending buffer, any node set), staging the transaction
A→B/5 and then mining as "miner1" appends a block whose data holds
both the staged transaction and the reward transaction 0→miner1/1,
whose `prev_hash` is the string content hash of the pre-mining tip,
and leaves the pending buffer empty. -/
theorem C4_stage_then_mine (bc : BlockChain) (tip : Block) (t1 : ℚ)
    (htip : bc.latest_block = .ok tip) :
    ∃ bc2 blk,
      (bc.new_data "A" "B" 5).1.block_mining "miner1" t1 = .ok (bc2, blk) ∧
      (⟨"A", "B", 5⟩ : Transaction) ∈ blk.data ∧
      (⟨"0", "miner1", 1⟩ : Transaction) ∈ blk.data ∧
      blk.prev_hash = .strV tip.calculate_hash ∧
      bc2.chain = bc.chain ++ [blk] ∧
      bc2.current_data = [] := by
  have hg : bc.chain.getLast? = some tip := by
    unfold BlockChain.latest_block at htip
    rcases h : bc.chain.getLast? with _ | b <;> rw [h] at htip <;> simp_all
  have h1 : ((bc.new_data "A" "B" 5).1.new_data "0" "miner1" 1).1.latest_block =
      .ok tip := by
    simp [BlockChain.new_data, BlockChain.latest_block, hg]
  refine ⟨⟨bc.chain ++ [mkBlock (bc.chain.length : Int)
        (BlockChain.proof_of_work tip.proof_no) (.strV tip.calculate_hash)
        ((bc.current_data ++ [⟨"A", "B", 5⟩]) ++ [⟨"0", "miner1", 1⟩]) none t1],
      [], bc.nodes⟩,
    mkBlock (bc.chain.length : Int) (BlockChain.proof_of_work tip.proof_no)
      (.strV tip.calculate_hash)
      ((bc.current_data ++ [⟨"A", "B", 5⟩]) ++ [⟨"0", "miner1", 1⟩]) none t1,
    ?_, ?_, ?_, rfl, rfl, rfl⟩
  · unfold BlockChain.block_mining
    simp only [h1]
    rfl
  · simp [mkBlock]
  · simp [mkBlock]

/-- Claim C4, witness: the theorem applied to a fresh ledger whose tip
is the genesis block, with mining clock 2. -/
theorem C4_witness :
    (mkBlockChain 1).latest_block =
      .ok (⟨0, some 0, .intV 0, [], 1⟩ : Block) ∧
    ∃ bc2 blk,
      ((mkBlockChain 1).new_data "A" "B" 5).1.block_mining "miner1" 2 =
        .ok (bc2, blk) ∧
      (⟨"A", "B", 5⟩ : Transaction) ∈ blk.data ∧
      (⟨"0", "miner1", 1⟩ : Transaction) ∈ blk.data ∧
      blk.prev_hash = .strV (Block.calculate_hash ⟨0, some 0, .intV 0, [], 1⟩) ∧
      bc2.chain = (mkBlockChain 1).chain ++ [blk] ∧
      bc2.current_data = [] :=
  ⟨rfl, C4_stage_then_mine (mkBlockChain 1) ⟨0, some 0, .intV 0, [], 1⟩ 2 rfl⟩

/-- Claim C5 (corrected): on an empty chain, `latest_block` raises the
builtin `IndexError` coming from `self.chain[-1]`; the source defines
no `EmptyChainError` (the modelled error taxonomy `PyErr` has no such
condition).  On a non-empty chain it returns the last element. -/
theorem C5_counterexample :
    BlockChain.latest_block ⟨[], [], ∅⟩ = .error PyErr.indexError := rfl

/-- Claim C5, amended: `latest_block` fails with the builtin
`IndexError` exactly on the empty chain and returns the chain's last
element otherwise. -/
theorem C5_latest_block_amended (bc : BlockChain) :
    (bc.chain = [] → bc.latest_block = .error PyErr.indexError) ∧
    (∀ b, bc.chain.getLast? = some b → bc.latest_block = .ok b) := by
  constructor
  · intro h
    simp [BlockChain.latest_block, h]
  · intro b h
    simp [BlockChain.latest_block, h]

/-- Claim C5, witness: the amended theorem applied to the empty ledger
state and to a one-block ledger. -/
theorem C5_witness :
    BlockChain.latest_block ⟨[], [], ∅⟩ = .error PyErr.indexError ∧
    BlockChain.latest_block ⟨[⟨0, some 0, .intV 0, [], 1⟩], [], ∅⟩ =
      .ok ⟨0, some 0, .intV 0, [], 1⟩ :=
  ⟨(C5_latest_block_amended ⟨[], [], ∅⟩).1 rfl,
   (C5_latest_block_amended ⟨[⟨0, some 0, .intV 0, [], 1⟩], [], ∅⟩).2 _ rfl⟩

/-- Claim C7 (corrected): the round-trip does NOT preserve the content
hash for every block — a block whose timestamp field is `0` (falsy)
gets the deserialization-time clock instead, changing the hashed
string and the digest. -/
theorem C7_counterexample :
    Block.calculate_hash
        (BlockChain.obtain_block_object (varsOf ⟨0, some 0, .intV 0, [], 0⟩) 1) ≠
      Block.calculate_hash ⟨0, some 0, .intV 0, [], 0⟩ := by decide

/-- Claim C7, amended: for every block whose timestamp is truthy
(non-zero), `obtain_block_object` applied to the block's field mapping
reconstructs a block with the same content hash. -/
theorem C7_roundtrip (b : Block) (clock : ℚ) (h : b.timestamp ≠ 0) :
    Block.calculate_hash (BlockChain.obtain_block_object (varsOf b) clock) =
      Block.calculate_hash b := by
  have he : BlockChain.obtain_block_object (varsOf b) clock = b := by
    unfold BlockChain.obtain_block_object varsOf mkBlock
    simp [h]
  rw [he]

/-- Claim C7, witness: the amended round-trip theorem applied to a
concrete block with timestamp 1 and deserialization clock 2. -/
theorem C7_witness :
    (Block.timestamp ⟨0, some 0, .intV 0, [], 1⟩ ≠ 0) ∧
    Block.calculate_hash
        (BlockChain.obtain_block_object (varsOf ⟨0, some 0, .intV 0, [], 1⟩) 2) =
      Block.calculate_hash ⟨0, some 0, .intV 0, [], 1⟩ :=
  ⟨by norm_num, C7_roundtrip ⟨0, some 0, .intV 0, [], 1⟩ 2 (by norm_num)⟩

/-- Claim C8 (corrected): `obtain_block_object` signals no
`MalformedRecordError` — with every key present but `index` bound to a
string (the wrong type) it succeeds, and with a key absent it raises
the builtin `KeyError` (the modelled error taxonomy `PyErr` has no
`MalformedRecordError` condition). -/
theorem C8_counterexample :
    obtain_block_object_dyn
        [("index", .vStr "x"), ("proof_no", .vNone), ("prev_hash", .vInt 0),
         ("data", .vTxs []), ("timestamp", .vInt 5)] 7 =
      .ok ⟨.vStr "x", .vNone, .vInt 0, .vTxs [], .vInt 5⟩ ∧
    obtain_block_object_dyn [] 7 = .error (PyErr.keyError "index") :=
  ⟨rfl, rfl⟩

/-- Claim C8, amended: `obtain_block_object` succeeds whenever all
five required keys are present, regardless of the types of their
values, and every failure is a builtin `KeyError` naming one of the
required keys that is absent from the mapping. -/
theorem C8_lookup_semantics (d : List (String × PyVal)) (clock : ℚ) :
    ((∀ k ∈ requiredKeys, (d.lookup k).isSome) →
      ∃ blk, obtain_block_object_dyn d clock = .ok blk) ∧
    (∀ e, obtain_block_object_dyn d clock = .error e →
      ∃ k ∈ requiredKeys, d.lookup k = none ∧ e = .keyError k) := by
  constructor
  · intro h
    obtain ⟨vi, hvi⟩ := Option.isSome_iff_exists.mp (h "index" (by simp [requiredKeys]))
    obtain ⟨vp, hvp⟩ := Option.isSome_iff_exists.mp (h "proof_no" (by simp [requiredKeys]))
    obtain ⟨vh, hvh⟩ := Option.isSome_iff_exists.mp (h "prev_hash" (by simp [requiredKeys]))
    obtain ⟨vd, hvd⟩ := Option.isSome_iff_exists.mp (h "data" (by simp [requiredKeys]))
    obtain ⟨vt, hvt⟩ := Option.isSome_iff_exists.mp (h "timestamp" (by simp [requiredKeys]))
    exact ⟨mkDynBlock vi vp vh vd vt clock,
      by simp [obtain_block_object_dyn, pyLookup, hvi, hvp, hvh, hvd, hvt]⟩
  · intro e he
    rcases hi : d.lookup "index" with _ | vi
    · refine ⟨"index", by simp [requiredKeys], hi, ?_⟩
      simp [obtain_block_object_dyn, pyLookup, hi] at he
      exact he.symm
    rcases hp : d.lookup "proof_no" with _ | vp
    · refine ⟨"proof_no", by simp [requiredKeys], hp, ?_⟩
      simp [obtain_block_object_dyn, pyLookup, hi, hp] at he
      exact he.symm
    rcases hh : d.lookup "prev_hash" with _ | vh
    · refine ⟨"prev_hash", by simp [requiredKeys], hh, ?_⟩
      simp [obtain_block_object_dyn, pyLookup, hi, hp, hh] at he
      exact he.symm
    rcases hd : d.lookup "data" with _ | vd
    · refine ⟨"data", by simp [requiredKeys], hd, ?_⟩
      simp [obtain_block_object_dyn, pyLookup, hi, hp, hh, hd] at he
      exact he.symm
    rcases ht : d.lookup "timestamp" with _ | vt
    · refine ⟨"timestamp", by simp [requiredKeys], ht, ?_⟩
      simp [obtain_block_object_dyn, pyLookup, hi, hp, hh, hd, ht] at he
      exact he.symm
    · simp [obtain_block_object_dyn, pyLookup, hi, hp, hh, hd, ht] at he

/-- Claim C8, witness: the amended theorem applied to a mapping with
all five keys present (bound to a mix of value types). -/
theorem C8_witness :
    (∀ k ∈ requiredKeys,
      (([("index", PyVal.vInt 0), ("proof_no", PyVal.vNone),
         ("prev_hash", PyVal.vInt 0), ("data", PyVal.vTxs []),
         ("timestamp", PyVal.vRat 3)] :
        List (String × PyVal)).lookup k).isSome) ∧
    ∃ blk, obtain_block_object_dyn
        [("index", PyVal.vInt 0), ("proof_no", PyVal.vNone),
         ("prev_hash", PyVal.vInt 0), ("data", PyVal.vTxs []),
         ("timestamp", PyVal.vRat 3)] 7 = .ok blk :=
  ⟨by decide,
   (C8_lookup_semantics
      [("index", PyVal.vInt 0), ("proof_no", PyVal.vNone),
       ("prev_hash", PyVal.vInt 0), ("data", PyVal.vTxs []),
       ("timestamp", PyVal.vRat 3)] 7).1 (by decide)⟩

/-- Claim C9 (confirmed): `proof_of_work last_proof` returns `1`
exactly when the verification predicate fails for candidate 0 against
`last_proof`, and Python `None` (modelled `none`) when it succeeds —
the result never consults candidate 1 or any later candidate — and a
ledger whose tip's proof number makes candidate 0 succeed mines a
block that carries a `proof_no` of `None` (69732 is such a tip proof
number: the digest of "069732" begins with "0000"). -/
theorem C9_proof_of_work_single_probe :
    (∀ last_proof : Option Int,
      BlockChain.proof_of_work last_proof =
        if BlockChain.verifying_proof (some 0) last_proof then none
        else some 1) ∧
    (∃ bc bc2 : BlockChain, ∃ blk : Block,
      bc.block_mining "miner1" 2 = .ok (bc2, blk) ∧ blk.proof_no = none) := by
  constructor
  · intro last_proof
    unfold BlockChain.proof_of_work
    rcases h : BlockChain.verifying_proof (some 0) last_proof <;> simp [h]
  · exact ⟨⟨[⟨0, some 69732, .intV 0, [], 1⟩], [], ∅⟩, _, _, rfl, by decide⟩

/-- Claim C10 (confirmed): a block constructed with the falsy
timestamp argument `0` stores the construction-time clock value, not
the argument, so deserializing a record whose timestamp field is `0`
yields the clock reading; a non-zero (truthy) timestamp is stored
unchanged. -/
theorem C10_falsy_timestamp (i : Int) (p : Option Int) (hv : HashV)
    (d : List Transaction) (ts clock : ℚ) :
    ((mkBlock i p hv d (some ts) clock).timestamp =
      if ts = 0 then clock else ts) ∧
    (BlockChain.obtain_block_object ⟨i, p, hv, d, 0⟩ clock).timestamp = clock ∧
    (ts ≠ 0 →
      (BlockChain.obtain_block_object ⟨i, p, hv, d, ts⟩ clock).timestamp = ts) := by
  refine ⟨rfl, rfl, fun hne => ?_⟩
  simp [BlockChain.obtain_block_object, mkBlock, hne]

/-- Claim C10, witness: the theorem applied at timestamp argument 1
and clock 5. -/
theorem C10_witness :
    ((mkBlock 0 (some 0) (.intV 0) [] (some 1) 5).timestamp =
      if (1 : ℚ) = 0 then 5 else 1) ∧
    (BlockChain.obtain_block_object ⟨0, some 0, .intV 0, [], 0⟩ 5).timestamp = 5 ∧
    (BlockChain.obtain_block_object ⟨0, some 0, .intV 0, [], 1⟩ 5).timestamp = 1 :=
  ⟨(C10_falsy_timestamp 0 (some 0) (.intV 0) [] 1 5).1,
   (C10_falsy_timestamp 0 (some 0) (.intV 0) [] 1 5).2.1,
   (C10_falsy_timestamp 0 (some 0) (.intV 0) [] 1 5).2.2 (by norm_num)⟩
